import Mathlib

/-!
Verification of the WhatsApp webhook chatbot (src/main.js, src/database.js,
src/similarity.js, src/src/schema.js) against its natural-language
specification.  The JavaScript is shallowly embedded: the PostgreSQL user
table and the Redis cache become Lean lists threaded explicitly through the
functions that read and write them, bcrypt is modelled as an ideal salted
one-way hash, and the external cosine-similarity library is modelled from
the spec's formula `dot(A,B) / (normA * normB)` over exact rationals.
-/

/-! ## bcrypt model

`bcrypt.hashSync(data, saltRounds)` generates a fresh random salt on every
call and returns a hash string that embeds that salt;
`bcrypt.compareSync(data, hash)` re-derives with the salt embedded in
`hash` and compares.  Modelled from the spec: the one-way derivation is an
ideal (collision-free) salted hash, so a hash value is represented by the
salt together with the exact input it was derived from, and the comparison
primitive succeeds exactly when the candidate equals that input.  The salt
is an arbitrary `Nat`, universally quantified wherever the code draws a
fresh one. -/

structure BHash where
  salt : Nat
  input : String
deriving DecidableEq

def hashSync (data : String) (salt : Nat) : BHash := ⟨salt, data⟩

def compareSync (data : String) (h : BHash) : Bool := data == h.input

/-! ## The user table (src/src/schema.js)

`user` has columns `id` (text, primary key, holding the bcrypt hash of the
raw WhatsApp identifier) and `thread_id` (text, nullable). -/

structure UserRecord where
  id : BHash
  thread_id : Option String
deriving DecidableEq

/-! ## checkDatabase (src/database.js lines 16-40)

The JS initialises `var thread_id = undefined; var found = false;`, selects
all user rows, and loops: `found = bcrypt.compareSync(target, users[i].ID);
if (found == true) break;`.  The variable `thread_id` is never reassigned
anywhere in the function body, so the returned object always carries
`thread_id: undefined` (`none` here), whatever the scan finds. -/

def checkDatabaseLoop (target : String) : List UserRecord → Bool
  | [] => false
  | u :: rest =>
    if compareSync target u.id then true
    else checkDatabaseLoop target rest

def checkDatabase (target : String) (users : List UserRecord) :
    Bool × Option String :=
  (checkDatabaseLoop target users, none)

/-! ## updateDatabase (src/database.js lines 49-60)

`db.insert(user).values({ id: user_id, thread_id: user_thread_id })`:
a plain row insert, modelled as appending to the table. -/

def updateDatabase (db : List UserRecord) (user_id : BHash)
    (user_thread_id : String) : List UserRecord :=
  db ++ [⟨user_id, some user_thread_id⟩]

/-! ## Similarity evaluator (src/similarity.js)

Embedding vectors are exact rational vectors (the JS floats idealised).
`dotp` and `magSq` are the standard dot product and squared magnitude.
`getSimilarity` is the external `cosine-similarity` npm library, modelled
from the spec: `dot(A,B) / (normA * normB)`, with the degenerate
zero-magnitude case defined to be 0 (the spec stipulates "define
similarity as 0 (not equivalent) in that case"); Lean's division by zero
yields exactly that.  `similarGT a b t` is the decidable form of the
strict comparison `getSimilarity a b > t` used by the code (the
equivalence is proved below as `similarGT_iff_getSimilarity`), so that the
classifier stays executable. -/

def dotp (a b : List ℚ) : ℚ := (List.zipWith (fun x y => x * y) a b).sum

def magSq (a : List ℚ) : ℚ := dotp a a

def threshold : ℚ := 81 / 100

def similarGT (a b : List ℚ) (t : ℚ) : Bool :=
  decide (0 < dotp a b) && decide (t ^ 2 * (magSq a * magSq b) < dotp a b ^ 2)

noncomputable def getSimilarity (a b : List ℚ) : ℝ :=
  (dotp a b : ℝ) / (Real.sqrt (magSq a) * Real.sqrt (magSq b))

/-- The function similarity(query, value) of src/similarity.js lines
51-65: embed both strings, compare the cosine score against `threshold`,
return the string "yes" or "no".  The embedding provider (OpenAI) is an
external capability, passed here as an explicit function from strings to
vectors. -/
def similarity (embed : String → List ℚ) (query value : String) : String :=
  if similarGT (embed query) (embed value) threshold then "yes" else "no"

/-! ## Redis cache model

The Redis keyspace is an association list of (key, value) pairs with
distinct keys, in a stable iteration order; `client.keys('*')` lists the
keys in that order and `client.get(key)` reads the value stored at a key.
-/

/-! ## checkCache (src/database.js lines 68-97)

`let found = false; let response = "error";` then for each key, if
`similarity(query, key) == "yes"` set `found = true`, read
`response = client.get(key)` and break.  On no match the initial values
are returned unchanged. -/

def checkCache (embed : String → List ℚ) (query : String) :
    List (String × String) → Bool × String
  | [] => (false, "error")
  | (key, value) :: rest =>
    if similarity embed query key == "yes" then (true, value)
    else checkCache embed query rest

/-! ## updateCache (src/database.js lines 106-116)

`client.set(query, response)`: Redis SET is an upsert — when the key
already exists its value is replaced, otherwise a new key is appended. -/

def redisSet (cache : List (String × String)) (k v : String) :
    List (String × String) :=
  if cache.any (fun p => p.1 == k) then
    cache.map (fun p => if p.1 == k then (k, v) else p)
  else
    cache ++ [(k, v)]

def updateCache (cache : List (String × String)) (query response : String) :
    List (String × String) :=
  redisSet cache query response

/-! ## GET /webhook verification handshake (src/main.js lines 249-269)

Query parameters are `Option String` (`none` when absent); JS truthiness
makes both `undefined` and the empty string falsy.  The handler only ever
responds inside `if (mode && token)`: with both truthy it answers 200 plus
the challenge when `mode === "subscribe" && token === verify_token`, else
403; with either falsy it falls through and sends nothing at all. -/

def truthy : Option String → Bool
  | none => false
  | some s => !(s == "")

inductive VerifyResult where
  | ok (challenge : Option String)
  | forbidden
  | noResponse
deriving DecidableEq

def webhookGet (verify_token : String) (mode token challenge : Option String) :
    VerifyResult :=
  if truthy mode && truthy token then
    if mode == some "subscribe" && token == some verify_token then
      VerifyResult.ok challenge
    else
      VerifyResult.forbidden
  else
    VerifyResult.noResponse

/-! ## sendMessage failure handling (src/main.js lines 40-53)

The axios POST carries a `.catch(error => { if (error.response) { log;
process.exit() } })`: a failure that carries an HTTP error response — any
status whatsoever — is logged and kills the process; a failure without a
response object (network-level) is swallowed by the catch with no log and
no exit.  `status` records the HTTP status code of the error response
(meaningful only when `hasResponse` is true); the handler never inspects
it. -/

structure DeliveryError where
  hasResponse : Bool
  status : Nat
deriving DecidableEq

inductive SendResult where
  | delivered
  | loggedAndExit
  | swallowed
deriving DecidableEq

def sendMessageOutcome : Option DeliveryError → SendResult
  | none => SendResult.delivered
  | some e =>
    if e.hasResponse then SendResult.loggedAndExit else SendResult.swallowed

/-- Modelled from the spec: "credential/auth-class failures" of the
outbound transport are the HTTP authentication and authorisation statuses.
No such classification exists anywhere in the code. -/
def isCredentialFailure (s : Nat) : Bool := s == 401 || s == 403

/-! ## Completion polling loop (src/main.js lines 161-165)

`while (runStatus.status !== "completed") { await sleep(4000); runStatus =
retrieve(...) }` — no counter, no timeout, no escape besides the status
test.  `status i` is the status string the i-th retrieval reports (i = 0
being the retrieve issued before the loop).  `pollFuel status fuel i`
runs the loop from retrieval `i` for at most `fuel` status tests and
returns the index at which the loop exited, or `none` when `fuel` tests
were not enough — so the concrete loop terminates on a run exactly when
some finite fuel suffices. -/

def pollFuel (status : Nat → String) : Nat → Nat → Option Nat
  | 0, _ => none
  | fuel + 1, i =>
    if status i == "completed" then some i
    else pollFuel status fuel (i + 1)

/-- The message the chatbot sends after the polling loop: it is reached
only when the loop exits, so it is `none` whenever `pollFuel` runs out. -/
def completionAnswer (status : Nat → String) (answer : String) (fuel : Nat) :
    Option String :=
  (pollFuel status fuel 0).map (fun _ => answer)

/-! ## Helper lemmas -/

theorem dotp_nil_right (a : List ℚ) : dotp a [] = 0 := by
  simp [dotp]

theorem dotp_cons (x y : ℚ) (a b : List ℚ) :
    dotp (x :: a) (y :: b) = x * y + dotp a b := rfl

theorem dotp_comm (a b : List ℚ) : dotp a b = dotp b a := by
  induction a generalizing b with
  | nil => cases b <;> simp [dotp]
  | cons x l ih =>
    cases b with
    | nil => simp [dotp]
    | cons y m => rw [dotp_cons, dotp_cons, ih, mul_comm]

theorem magSq_nonneg (a : List ℚ) : 0 ≤ magSq a := by
  induction a with
  | nil => simp [magSq, dotp]
  | cons x l ih =>
    have hx : 0 ≤ x * x := mul_self_nonneg x
    have : magSq (x :: l) = x * x + magSq l := rfl
    rw [this]
    exact add_nonneg hx ih

theorem dotp_eq_zero_of_magSq_left (a : List ℚ) (ha : magSq a = 0)
    (b : List ℚ) : dotp a b = 0 := by
  induction a generalizing b with
  | nil => cases b <;> simp [dotp]
  | cons x l ih =>
    have hx : 0 ≤ x * x := mul_self_nonneg x
    have hl : 0 ≤ magSq l := magSq_nonneg l
    have hsum : x * x + magSq l = 0 := ha
    have hx0 : x * x = 0 := by nlinarith
    have hl0 : magSq l = 0 := by nlinarith
    have hx' : x = 0 := by
      exact mul_self_eq_zero.mp hx0
    cases b with
    | nil => simp [dotp]
    | cons y m =>
      rw [dotp_cons, ih hl0 m, hx']
      ring

theorem dotp_eq_zero_of_magSq_right (a b : List ℚ) (hb : magSq b = 0) :
    dotp a b = 0 := by
  rw [dotp_comm]
  exact dotp_eq_zero_of_magSq_left b hb a

theorem checkDatabaseLoop_append (target : String) (l1 l2 : List UserRecord) :
    checkDatabaseLoop target (l1 ++ l2) =
      (checkDatabaseLoop target l1 || checkDatabaseLoop target l2) := by
  induction l1 with
  | nil => simp [checkDatabaseLoop]
  | cons u rest ih =>
    by_cases h : compareSync target u.id
    · simp [checkDatabaseLoop, h]
    · simp [checkDatabaseLoop, h, ih]

theorem compareSync_hashSync (data raw : String) (s : Nat) :
    compareSync data (hashSync raw s) = (data == raw) := rfl

theorem pollFuel_eq_none (status : Nat → String)
    (h : ∀ i, status i ≠ "completed") :
    ∀ fuel i, pollFuel status fuel i = none := by
  intro fuel
  induction fuel with
  | zero => intro i; rfl
  | succ n ih =>
    intro i
    have hc : (status i == "completed") = false := by
      simpa using h i
    simp [pollFuel, hc, ih]

/-! ## Claim theorems -/

/-- Claim C1 (code bug): the claim says that when `checkDatabase` reports
`found = true` the returned `thread_id` is the matching record's thread
handle.  In the code `var thread_id = undefined` is never reassigned, so
the function returns `thread_id: undefined` even when the scan matches: at
a store holding the record for "alice" with thread handle "thread-1", the
call returns `(true, none)` instead of `(true, some "thread-1")`. -/
theorem checkDatabase_thread_id_bug :
    checkDatabase "alice" [⟨hashSync "alice" 7, some "thread-1"⟩] = (true, none)
    ∧ (some "thread-1" : Option String) ≠ none := by
  exact ⟨rfl, by decide⟩

/-- Claim C2 counterexample: on a miss `checkCache` reports `found = false`
together with the *non-empty* sentinel string "error" (the initial value of
`response`), not an empty response as the claim states. -/
theorem checkCache_miss_response_cex :
    checkCache (fun _ => []) "q" [] = (false, "error")
    ∧ ("error" : String) ≠ "" := by
  exact ⟨rfl, by decide⟩

/-- Claim C2 (amended): `checkCache` scans the cache entries in order,
tests semantic similarity of the query against each entry's key, and on
the first equivalent match returns `found = true` with that entry's stored
response, scanning no further (first-match-wins); if no entry matches it
reports `found = false` with the sentinel response "error" (not an empty
response).  Stated via `List.find?`, whose result is exactly the first
entry satisfying the predicate. -/
theorem checkCache_first_match (embed : String → List ℚ) (query : String)
    (cache : List (String × String)) :
    checkCache embed query cache =
      match cache.find? (fun e => similarity embed query e.1 == "yes") with
      | some e => (true, e.2)
      | none => (false, "error") := by
  induction cache with
  | nil => rfl
  | cons hd tl ih =>
    obtain ⟨k, v⟩ := hd
    by_cases h : (similarity embed query k == "yes") = true
    · simp [checkCache, List.find?, h]
    · simp [checkCache, List.find?, h, ih]

/-- Claim C3: identity round-trip.  After a lookup miss for a raw
identifier, the chatbot stores `bcrypt.hashSync(raw, salt)` with the new
thread handle (`updateDatabase`); a second `checkDatabase` on the same raw
identifier then reports `found = true`, even though every `hashSync` call
draws a fresh salt (the salt `s` here is arbitrary), because
`compareSync` re-derives with the salt stored in the hash.  And a
different raw identifier is never conflated with the new record: its
resolution result is exactly what it was before the record was created. -/
theorem identity_roundtrip (db : List UserRecord) (raw raw2 : String)
    (s : Nat) (t : String)
    (hmiss : (checkDatabase raw db).1 = false) (hne : raw2 ≠ raw) :
    (checkDatabase raw (updateDatabase db (hashSync raw s) t)).1 = true
    ∧ checkDatabase raw2 (updateDatabase db (hashSync raw s) t)
        = checkDatabase raw2 db := by
  constructor
  · show checkDatabaseLoop raw (db ++ [⟨hashSync raw s, some t⟩]) = true
    rw [checkDatabaseLoop_append]
    have hone : checkDatabaseLoop raw [⟨hashSync raw s, some t⟩] = true := by
      simp [checkDatabaseLoop, compareSync, hashSync]
    rw [hone, Bool.or_true]
  · have hrec : checkDatabaseLoop raw2 [⟨hashSync raw s, some t⟩] = false := by
      simp [checkDatabaseLoop, compareSync, hashSync, hne]
    show (checkDatabaseLoop raw2 (db ++ [⟨hashSync raw s, some t⟩]), none)
        = (checkDatabaseLoop raw2 db, (none : Option String))
    rw [checkDatabaseLoop_append, hrec, Bool.or_false]

/-- Claim C3 witness: concrete round-trip through an initially empty user
table, with salt 3 drawn at hashing time. -/
theorem identity_roundtrip_witness :
    (checkDatabase "15550001111"
        (updateDatabase [] (hashSync "15550001111" 3) "thr-9")).1 = true
    ∧ checkDatabase "15550002222"
          (updateDatabase [] (hashSync "15550001111" 3) "thr-9")
        = checkDatabase "15550002222" [] :=
  identity_roundtrip [] "15550001111" "15550002222" 3 "thr-9" rfl (by decide)

/-- Claim C6 counterexample: the polling loop in the code has no bound at
all.  For a run whose polled status is always "in_progress", no finite
number of loop iterations makes the loop exit — there is no fuel after
which `pollFuel` returns an exit index — so the claim that the loop
terminates within a configured bound and surfaces a timeout failure is
false of this code. -/
theorem poll_never_exits_cex :
    ¬ ∃ fuel, pollFuel (fun _ => "in_progress") fuel 0 ≠ none := by
  rintro ⟨fuel, hf⟩
  exact hf (pollFuel_eq_none _
    (fun i => by show "in_progress" ≠ "completed"; decide) fuel 0)

/-- Claim C6 (amended): the reference polling loop is unbounded — it has
no retry or timeout bound and no `CompletionTimedOut` failure exists in
the code.  For every completion run whose polled status never reads
"completed", the loop never exits however many iterations are allowed,
and consequently no answer (fabricated or otherwise) is ever sent to the
user from that turn. -/
theorem poll_unbounded (status : Nat → String) (answer : String)
    (h : ∀ i, status i ≠ "completed") (fuel : Nat) :
    pollFuel status fuel 0 = none
    ∧ completionAnswer status answer fuel = none := by
  have h0 := pollFuel_eq_none status h fuel 0
  exact ⟨h0, by simp [completionAnswer, h0]⟩

/-- Claim C6 witness: a run stuck on "queued" for 5 polls has neither
exited the loop nor produced a message. -/
theorem poll_unbounded_witness :
    pollFuel (fun _ => "queued") 5 0 = none
    ∧ completionAnswer (fun _ => "queued") "answer" 5 = none :=
  poll_unbounded (fun _ => "queued") "answer"
    (fun i => by show "queued" ≠ "completed"; decide) 5

/-- Claim C7 counterexample: the claim says only credential/auth-class
delivery failures are fatal and all other failures are logged and
swallowed.  The catch handler tests only `error.response`: a 500 server
error — not a credential failure — is logged and kills the process, and a
response-less network failure is swallowed without being logged. -/
theorem sendMessage_exit_cex :
    sendMessageOutcome (some ⟨true, 500⟩) = SendResult.loggedAndExit
    ∧ isCredentialFailure 500 = false
    ∧ sendMessageOutcome (some ⟨false, 0⟩) = SendResult.swallowed :=
  ⟨rfl, rfl, rfl⟩

/-- Claim C7 (amended): when outbound delivery fails with an HTTP error
response the failure is logged and the process terminates, regardless of
the response's status class; when it fails without a response object the
failure is swallowed — neither logged nor fatal — and the process
continues.  The handler never inspects the status code. -/
theorem sendMessage_error_policy (e : DeliveryError) :
    (e.hasResponse = true →
      sendMessageOutcome (some e) = SendResult.loggedAndExit)
    ∧ (e.hasResponse = false →
      sendMessageOutcome (some e) = SendResult.swallowed) := by
  constructor <;> intro h <;> simp [sendMessageOutcome, h]

/-- Claim C8 counterexample: `updateCache` goes through Redis `SET`, which
overwrites the value stored at an existing key.  Storing response "r2"
under the already-present query text "q" replaces the pre-existing pair
("q", "r1"), so the claim that a store call never changes a pre-existing
entry — even for identical query text — is false. -/
theorem updateCache_overwrites_cex :
    updateCache [("q", "r1")] "q" "r2" = [("q", "r2")]
    ∧ ("q", "r1") ∉ updateCache [("q", "r1")] "q" "r2" := by
  exact ⟨rfl, by decide⟩

/-- Claim C8 (amended): `updateCache` upserts by exact key.  A store call
whose query text is exactly equal to an existing entry's key overwrites
that entry's response; every pre-existing entry whose key differs from the
stored query text — including near-identical but unequal text — keeps its
stored response unchanged. -/
theorem updateCache_preserves_other_keys (cache : List (String × String))
    (q r k v : String) (hmem : (k, v) ∈ cache) (hne : k ≠ q) :
    (k, v) ∈ updateCache cache q r := by
  unfold updateCache redisSet
  by_cases h : cache.any (fun p => p.1 == q) = true
  · rw [if_pos h]
    have hm := List.mem_map_of_mem
      (fun p : String × String => if p.1 == q then (q, r) else p) hmem
    simpa [hne] using hm
  · rw [if_neg h]
    exact List.mem_append_left _ hmem

/-- Claim C8 witness: a stored pair under a different key survives a
store call. -/
theorem updateCache_preserves_witness :
    ("what is the capital of France", "Paris") ∈
      updateCache [("what is the capital of France", "Paris")]
        "what is the capital of Spain" "Madrid" :=
  updateCache_preserves_other_keys _ _ _ _ _ (by decide) (by decide)

/-- Claim C9: with a mode and a verification token supplied (non-empty),
GET /webhook answers 200 with the supplied challenge exactly when the
token equals the configured secret and the mode is "subscribe"; whenever
the supplied token is incorrect it answers 403, whatever the mode. -/
theorem webhook_verify (secret m t c : String) (hm : m ≠ "") (ht : t ≠ "") :
    (webhookGet secret (some m) (some t) (some c) = VerifyResult.ok (some c)
      ↔ (t = secret ∧ m = "subscribe"))
    ∧ (t ≠ secret →
        webhookGet secret (some m) (some t) (some c)
          = VerifyResult.forbidden) := by
  have htr : truthy (some m) = true := by simp [truthy, hm]
  have htt : truthy (some t) = true := by simp [truthy, ht]
  have hw : webhookGet secret (some m) (some t) (some c) =
      (if m = "subscribe" ∧ t = secret then VerifyResult.ok (some c)
       else VerifyResult.forbidden) := by
    unfold webhookGet
    rw [htr, htt]
    by_cases hsub : m = "subscribe" <;> by_cases hsec : t = secret <;>
      simp [hsub, hsec]
  constructor
  · rw [hw]
    by_cases hand : m = "subscribe" ∧ t = secret
    · rw [if_pos hand]
      simp [hand.1, hand.2]
    · rw [if_neg hand]
      constructor
      · intro hcontra; exact VerifyResult.noConfusion hcontra
      · rintro ⟨h1, h2⟩; exact absurd ⟨h2, h1⟩ hand
  · intro hts
    rw [hw, if_neg]
    rintro ⟨-, h2⟩
    exact hts h2

/-- Claim C9 witness: the correct token with mode "subscribe" echoes the
challenge with success status. -/
theorem webhook_verify_witness :
    webhookGet "token123" (some "subscribe") (some "token123") (some "42")
      = VerifyResult.ok (some "42") :=
  (webhook_verify "token123" "subscribe" "token123" "42"
    (by decide) (by decide)).1.mpr ⟨rfl, rfl⟩

/-- Claim C10: a verification request whose mode or verification-token
parameter is absent or empty falls outside `if (mode && token)`, and the
handler sends no response at all — neither the challenge with 200 nor a
403. -/
theorem webhook_no_params_no_response (secret : String)
    (mode token challenge : Option String)
    (h : truthy mode = false ∨ truthy token = false) :
    webhookGet secret mode token challenge = VerifyResult.noResponse := by
  rcases h with h | h <;> simp [webhookGet, h]

/-- Claim C10 witness: a request with the mode parameter missing gets no
response even when its token is correct. -/
theorem webhook_no_params_witness :
    webhookGet "tok" none (some "tok") (some "99") = VerifyResult.noResponse :=
  webhook_no_params_no_response "tok" none (some "tok") (some "99")
    (Or.inl rfl)

/-! ## Similarity: the cosine score against the executable classifier -/

theorem getSimilarity_degenerate (a b : List ℚ)
    (h : magSq a = 0 ∨ magSq b = 0) : getSimilarity a b = 0 := by
  have hd : dotp a b = 0 := by
    rcases h with h | h
    · exact dotp_eq_zero_of_magSq_left a h b
    · exact dotp_eq_zero_of_magSq_right a b h
  unfold getSimilarity
  rw [hd]
  simp

theorem similarGT_iff_getSimilarity (a b : List ℚ) (t : ℚ) (ht : 0 ≤ t) :
    similarGT a b t = true ↔ (t : ℝ) < getSimilarity a b := by
  have hA := magSq_nonneg a
  have hB := magSq_nonneg b
  rcases eq_or_lt_of_le hA with hA0 | hApos
  · have hd : dotp a b = 0 := dotp_eq_zero_of_magSq_left a hA0.symm b
    have hz : getSimilarity a b = 0 := getSimilarity_degenerate a b (Or.inl hA0.symm)
    rw [hz]
    constructor
    · intro h
      rw [similarGT, Bool.and_eq_true, decide_eq_true_eq, decide_eq_true_eq] at h
      rw [hd] at h
      exact absurd h.1 (lt_irrefl 0)
    · intro h
      exact absurd h (not_lt.mpr (by exact_mod_cast ht))
  · rcases eq_or_lt_of_le hB with hB0 | hBpos
    · have hd : dotp a b = 0 := dotp_eq_zero_of_magSq_right a b hB0.symm
      have hz : getSimilarity a b = 0 :=
        getSimilarity_degenerate a b (Or.inr hB0.symm)
      rw [hz]
      constructor
      · intro h
        rw [similarGT, Bool.and_eq_true, decide_eq_true_eq, decide_eq_true_eq] at h
        rw [hd] at h
        exact absurd h.1 (lt_irrefl 0)
      · intro h
        exact absurd h (not_lt.mpr (by exact_mod_cast ht))
    · have hA' : (0 : ℝ) < (magSq a : ℝ) := by exact_mod_cast hApos
      have hB' : (0 : ℝ) < (magSq b : ℝ) := by exact_mod_cast hBpos
      have hsA : (0 : ℝ) < Real.sqrt (magSq a) := Real.sqrt_pos.mpr hA'
      have hsB : (0 : ℝ) < Real.sqrt (magSq b) := Real.sqrt_pos.mpr hB'
      have hs : (0 : ℝ) < Real.sqrt (magSq a) * Real.sqrt (magSq b) :=
        mul_pos hsA hsB
      have hs2 : (Real.sqrt (magSq a) * Real.sqrt (magSq b)) ^ 2
          = (magSq a : ℝ) * (magSq b : ℝ) := by
        rw [mul_pow, Real.sq_sqrt hA'.le, Real.sq_sqrt hB'.le]
      have ht' : (0 : ℝ) ≤ (t : ℝ) := by exact_mod_cast ht
      unfold getSimilarity similarGT
      rw [lt_div_iff hs, Bool.and_eq_true, decide_eq_true_eq, decide_eq_true_eq]
      constructor
      · rintro ⟨hdpos, hsq⟩
        have hdpos' : (0 : ℝ) < (dotp a b : ℝ) := by exact_mod_cast hdpos
        have hsq' : ((t : ℝ)) ^ 2 * ((magSq a : ℝ) * (magSq b : ℝ))
            < ((dotp a b : ℝ)) ^ 2 := by exact_mod_cast hsq
        have hlt : ((t : ℝ) * (Real.sqrt (magSq a) * Real.sqrt (magSq b))) ^ 2
            < ((dotp a b : ℝ)) ^ 2 := by
          rw [mul_pow, hs2]
          exact hsq'
        exact lt_of_pow_lt_pow_left 2 hdpos'.le hlt
      · intro h
        have hts : (0 : ℝ) ≤ (t : ℝ) * (Real.sqrt (magSq a) * Real.sqrt (magSq b)) :=
          mul_nonneg ht' hs.le
        have hdpos' : (0 : ℝ) < (dotp a b : ℝ) := lt_of_le_of_lt hts h
        have hsqR : ((t : ℝ) * (Real.sqrt (magSq a) * Real.sqrt (magSq b))) ^ 2
            < ((dotp a b : ℝ)) ^ 2 :=
          pow_lt_pow_left h hts (by norm_num)
        rw [mul_pow, hs2] at hsqR
        constructor
        · exact_mod_cast hdpos'
        · exact_mod_cast hsqR

/-- Claim C4: the similarity evaluator classifies two texts as equivalent
("yes") exactly when the cosine similarity score of their embeddings
strictly exceeds the fixed threshold 0.81; in every other case — a score
equal to 0.81 included — it classifies them as not equivalent ("no"). -/
theorem similarity_threshold (embed : String → List ℚ) (q v : String) :
    (similarity embed q v = "yes"
      ↔ (threshold : ℝ) < getSimilarity (embed q) (embed v))
    ∧ (similarity embed q v = "no"
      ↔ ¬ (threshold : ℝ) < getSimilarity (embed q) (embed v)) := by
  have hth : (0 : ℚ) ≤ threshold := by norm_num [threshold]
  have hiff := similarGT_iff_getSimilarity (embed q) (embed v) threshold hth
  unfold similarity
  by_cases h : similarGT (embed q) (embed v) threshold = true
  · rw [if_pos h]
    constructor
    · exact ⟨fun _ => hiff.mp h, fun _ => rfl⟩
    · constructor
      · intro hcontra
        exact absurd hcontra (by decide)
      · intro hcontra
        exact absurd (hiff.mp h) hcontra
  · rw [if_neg h]
    constructor
    · constructor
      · intro hcontra
        exact absurd hcontra (by decide)
      · intro hscore
        exact absurd (hiff.mpr hscore) h
    · exact ⟨fun _ => fun hscore => h (hiff.mpr hscore), fun _ => rfl⟩

/-- Claim C5: a pair of vectors of which at least one has zero magnitude
produces no division fault — `getSimilarity` is total and yields exactly
the score 0 there, as the spec defines for the degenerate case — and the
classifier therefore answers "no": the pair is not equivalent. -/
theorem zero_magnitude_not_equivalent (embed : String → List ℚ)
    (q v : String) (h : magSq (embed q) = 0 ∨ magSq (embed v) = 0) :
    getSimilarity (embed q) (embed v) = 0
    ∧ similarity embed q v = "no" := by
  have hz := getSimilarity_degenerate (embed q) (embed v) h
  refine ⟨hz, ?_⟩
  have hd : dotp (embed q) (embed v) = 0 := by
    rcases h with h | h
    · exact dotp_eq_zero_of_magSq_left _ h _
    · exact dotp_eq_zero_of_magSq_right _ _ h
  unfold similarity similarGT
  rw [hd]
  simp

/-- Claim C5 witness: the empty embedding has zero magnitude; the score is
0 and the classification is "no". -/
theorem zero_magnitude_witness :
    getSimilarity ((fun _ => ([] : List ℚ)) "hello") ((fun _ => ([] : List ℚ)) "world") = 0
    ∧ similarity (fun _ => ([] : List ℚ)) "hello" "world" = "no" :=
  zero_magnitude_not_equivalent (fun _ => ([] : List ℚ)) "hello" "world"
    (Or.inl rfl)
